import Mathlib

/-!
Verification of the DocuMentor frontend (React/TypeScript chat client).

The development shallowly embeds the parts of the client that the
specification talks about:

* the SSE stream decoder `askStream` in `src/services/api.ts`
  (read loop, per-chunk line split, `data: ` recognition, JSON parse);
* the two API clients: the `DocuMentorAPI` class of `src/services/api.ts`
  and the generic `apiRequest` handler of the `@/lib/api` module;
* the two divergent `DocuMentorLayout` components (message list state,
  `handleSendMessage`, `handleClearChat`, loading flag);
* the `ChatInput` submit guard.

JavaScript strings are modelled as `List Char` (`Str`); the handful of
string operations the code uses (`split`, `startsWith`, `slice`, `trim`,
`includes`) are defined below as plain list recursions so that every
definition evaluates inside the kernel.  Asynchrony is modelled by making
each handler a pure function of the outcome of its single awaited call.
-/

/-- A JavaScript string, modelled as its list of characters. -/
abbrev Str := List Char

/-- Model of `s.startsWith(p)` on JS strings. -/
def jsStartsWith : Str → Str → Bool
  | _, [] => true
  | [], _ :: _ => false
  | c :: s, d :: p => c = d && jsStartsWith s p

/-- Model of `s.split(sep)` on JS strings (single-character separator, as used by
the stream decoder with `'\n'`).  Like in JS, splitting the empty string
yields `[""]` and a trailing separator yields a trailing empty piece. -/
def jsSplit (sep : Char) : Str → List Str
  | [] => [[]]
  | c :: rest =>
    let r := jsSplit sep rest
    if c = sep then [] :: r
    else
      match r with
      | [] => [[c]]
      | h :: t => (c :: h) :: t

/-- JS whitespace test for `trim` (the ASCII whitespace actually relevant
to the inputs of this client). -/
def jsIsWs (c : Char) : Bool :=
  c = ' ' || c = '\t' || c = '\n' || c = '\r'

/-- Model of `s.trim()` on JS strings. -/
def jsTrim (s : Str) : Str :=
  ((s.dropWhile jsIsWs).reverse.dropWhile jsIsWs).reverse

/-- Model of `s.includes(t)` on JS strings. -/
def jsIncludes (s t : Str) : Bool :=
  match s with
  | [] => jsStartsWith [] t
  | c :: rest => jsStartsWith (c :: rest) t || jsIncludes rest t

/-- The character of a decimal digit. -/
def digitChar : Nat → Char
  | 0 => '0' | 1 => '1' | 2 => '2' | 3 => '3' | 4 => '4'
  | 5 => '5' | 6 => '6' | 7 => '7' | 8 => '8' | _ => '9'

/-- Decimal rendering of a natural number (for `${response.status}`
string interpolation); fuelled by the number itself. -/
def natToStrAux : Nat → Nat → Str
  | 0, _ => []
  | fuel + 1, n =>
    if n < 10 then [digitChar n]
    else natToStrAux fuel (n / 10) ++ [digitChar (n % 10)]

/-- Decimal rendering of a natural number as a JS string. -/
def natToStr (n : Nat) : Str := natToStrAux (n + 1) n

/-- A JSON value, as produced by `JSON.parse` on the payloads this client
exchanges: numbers, strings, and (flat) objects. -/
inductive Json where
  | num (q : ℚ)
  | str (s : Str)
  | obj (fields : List (Str × Json))

/-- Association lookup in a parsed JSON object (models property access
`o.field`, `none` standing for `undefined`; property access on a
non-object JSON value also yields `undefined`). -/
def jsonField : Json → Str → Option Json
  | .obj fields, key => fieldLookup fields key
  | _, _ => none
where fieldLookup : List (Str × Json) → Str → Option Json
  | [], _ => none
  | (k, v) :: rest, key => if k = key then some v else fieldLookup rest key

/-- JS truthiness of a parsed JSON value (the empty string and `0` are falsy,
objects are truthy), used to model `errorData.detail || fallback`. -/
def jsonTruthy : Json → Bool
  | .num q => q ≠ 0
  | .str s => s ≠ []
  | .obj _ => true

/-- JS string coercion of a JSON value (as applied by the `Error`
constructor to its message argument).  Numeric values here are the
integers the restricted parser produces, rendered with their sign. -/
def jsonToStr : Json → Str
  | .num q => (if q < 0 then ['-'] else []) ++ natToStr q.num.natAbs
  | .str s => s
  | .obj _ => "[object Object]".data

/-- Parser for a JSON string literal body: consumes characters up to the
closing quote (the payloads of this client use no escape sequences). -/
def parseStrLit : Str → Option (Str × Str)
  | [] => none
  | c :: rest =>
    if c = '"' then some ([], rest)
    else
      match parseStrLit rest with
      | some (s, r) => some (c :: s, r)
      | none => none

/-- Longest digit run at the head of the input. -/
def takeDigits : Str → (Str × Str)
  | [] => ([], [])
  | c :: rest =>
    if c.isDigit then
      let p := takeDigits rest
      (c :: p.1, p.2)
    else ([], c :: rest)

/-- Numeric value of a digit run. -/
def digitsVal (ds : Str) : Nat :=
  ds.foldl (fun n c => 10 * n + (c.toNat - 48)) 0

/-- Parser for a JSON integer (with optional leading minus sign). -/
def parseNum : Str → Option (ℚ × Str)
  | '-' :: rest =>
    let p := takeDigits rest
    if p.1.isEmpty then none else some (-(digitsVal p.1 : ℚ), p.2)
  | s =>
    let p := takeDigits s
    if p.1.isEmpty then none else some ((digitsVal p.1 : ℚ), p.2)

/-- Parser for a JSON scalar value (string or integer). -/
def parseVal (s : Str) : Option (Json × Str) :=
  match s with
  | '"' :: rest =>
    match parseStrLit rest with
    | some (lit, r) => some (Json.str lit, r)
    | none => none
  | _ =>
    match parseNum s with
    | some (q, r) => some (Json.num q, r)
    | none => none

/-- Parser for the members of a JSON object, up to and including the
closing brace; fuelled (the fuel used by `jsonParse` always suffices). -/
def parsePairs : Nat → Str → Option (List (Str × Json) × Str)
  | 0, _ => none
  | fuel + 1, s =>
    match s with
    | '"' :: rest =>
      match parseStrLit rest with
      | some (k, ':' :: rest2) =>
        match parseVal rest2 with
        | some (v, ',' :: rest3) =>
          match parsePairs fuel rest3 with
          | some (ps, r) => some ((k, v) :: ps, r)
          | none => none
        | some (v, '}' :: rest3) => some ([(k, v)], rest3)
        | _ => none
      | _ => none
    | _ => none

/-- Model of the `JSON.parse` builtin, restricted to the payload shapes
this client actually exchanges: flat objects with string keys and
string/integer values (no whitespace, no escape sequences, no nesting),
and top-level scalars.  `none` models a thrown `SyntaxError`; in
particular every truncated input (e.g. an object cut off mid-string)
fails to parse, which is the behaviour the stream-decoder claims turn
on. -/
def jsonParse (s : Str) : Option Json :=
  match s with
  | '{' :: '}' :: rest => if rest.isEmpty then some (Json.obj []) else none
  | '{' :: rest =>
    match parsePairs (rest.length + 1) rest with
    | some (ps, []) => some (Json.obj ps)
    | _ => none
  | _ =>
    match parseVal s with
    | some (v, []) => some v
    | _ => none

/-- Model of the `for (const line of lines)` body of `askStream`
(`src/services/api.ts` lines 133–142): a line starting with `"data: "`
has the 6-character tag sliced off and the remainder `JSON.parse`d; a
successful parse is passed to `onChunk`, a parse failure is logged and
skipped, and any other line is ignored.  The returned list is the
sequence of `onChunk` arguments, in order. -/
def processLines : List Str → List Json
  | [] => []
  | line :: rest =>
    if jsStartsWith line ("data: ".data) then
      match jsonParse (line.drop 6) with
      | some data => data :: processLines rest
      | none => processLines rest
    else processLines rest

/-- Model of the read loop of `askStream` (`src/services/api.ts` lines 126–143):
each chunk delivered by `reader.read()` is decoded and split on `'\n'`
on its own — no text is carried from one read to the next.  The argument
is the list of text chunks the reads deliver; the result is the sequence
of `onChunk` arguments. -/
def askStreamDecode : List Str → List Json
  | [] => []
  | chunk :: rest => processLines (jsSplit '\n' chunk) ++ askStreamDecode rest

/-- Modelled from the spec (§4.1 Stream Decoder), not from the source:
the buffering behaviour the spec prescribes — "Buffer incomplete
trailing fragments between reads and prepend them to the decoded text of the next read before re-splitting on line boundaries", with no partial
final frame processed at end of stream.  `buf` is the carried
fragment. -/
def bufferedDecodeGo : List Str → Str → List Json
  | [], _ => []
  | chunk :: rest, buf =>
    let lines := jsSplit '\n' (buf ++ chunk)
    processLines lines.dropLast ++ bufferedDecodeGo rest (lines.getLastD [])

/-- Modelled from the spec (§4.1): the whole buffered decode, starting
with an empty carried fragment. -/
def bufferedDecode (chunks : List Str) : List Json :=
  bufferedDecodeGo chunks []

/-- Per-line event characterisation, written from the words of the spec: a
callback fires exactly for lines beginning with the literal tag
`"data: "` whose remainder parses as JSON. -/
def specStreamEvent (line : Str) : Option Json :=
  if jsStartsWith line ("data: ".data) then jsonParse (line.drop 6) else none

/-- An HTTP response as `fetch` resolves it: the `ok` flag, status,
status text, and the raw body text (to be consumed by
`response.json()`). -/
structure HttpResponse where
  ok : Bool
  status : Nat
  statusText : Str
  body : Str

/-- The outcome of an awaited `fetch`: either a response, or a rejection
(network/transport failure or similar), tagged with whether the thrown
error is a `TypeError` and its message. -/
inductive FetchOutcome where
  | response (r : HttpResponse)
  | reject (isTypeError : Bool) (message : Str)

/-- The `DocuMentorApiError` class of the `@/lib/api` module: an `Error`
carrying the user-facing message plus the HTTP status and status
text. -/
structure DocuMentorApiError where
  message : Str
  status : Nat
  statusText : Str

/-- A thrown JS error, as the `DocuMentorAPI` class methods and the
layout handlers observe it. -/
inductive JsError where
  | plain (message : Str)
  | typeError (message : Str)
  | parseError (message : Str)
  | apiError (e : DocuMentorApiError)

/-- The `isApiError` guard of `@/lib/api`. -/
def isApiError : JsError → Bool
  | .apiError _ => true
  | _ => false

/-- The default non-2xx message of `apiRequest`:
`` `Request failed: ${response.status} ${response.statusText}` ``. -/
def fallbackErrorMessage (r : HttpResponse) : Str :=
  "Request failed: ".data ++ natToStr r.status ++ " ".data ++ r.statusText

/-- The non-2xx message computation of `apiRequest` (lines 44–55 of the
`@/lib/api` module): try `response.json()`, take `errorData.detail ||
errorMessage` (JS truthiness), keep the default message when the body
is not JSON. -/
def httpErrorMessage (r : HttpResponse) : Str :=
  match jsonParse r.body with
  | some errorData =>
    match jsonField errorData ("detail".data) with
    | some d => if jsonTruthy d then jsonToStr d else fallbackErrorMessage r
    | none => fallbackErrorMessage r
  | none => fallbackErrorMessage r

/-- The connectivity error `apiRequest` constructs for a `TypeError`
whose message mentions `fetch` (lines 65–71). -/
def connectivityError : DocuMentorApiError :=
  { message := ("Network error: Unable to connect to the server. " ++
      "Please check your connection and try again.").data,
    status := 0, statusText := "Network Error".data }

/-- The catch-all error `apiRequest` constructs for any other failure
(lines 73–77). -/
def unexpectedApiError : DocuMentorApiError :=
  { message := "An unexpected error occurred. Please try again.".data,
    status := 500, statusText := "Unknown Error".data }

/-- Model of the generic `apiRequest` handler of `@/lib/api` (lines 27–79), as a
function of the `fetch` outcome: a non-2xx response raises a
`DocuMentorApiError` built by `httpErrorMessage`; an `ok` response is
`response.json()`d (a parse failure there falls to the catch-all); a
rejected `fetch` becomes the connectivity error when it is a
`TypeError` mentioning `fetch`, and the catch-all otherwise. -/
def apiRequest (outcome : FetchOutcome) : Except DocuMentorApiError Json :=
  match outcome with
  | .response r =>
    if !r.ok then
      .error { message := httpErrorMessage r, status := r.status, statusText := r.statusText }
    else
      match jsonParse r.body with
      | some data => .ok data
      | none => .error unexpectedApiError
  | .reject isTypeError m =>
    if isTypeError && jsIncludes m ("fetch".data) then .error connectivityError
    else .error unexpectedApiError

/-- Model of `DocuMentorAPI.ask` from `src/services/api.ts` (lines 29–54), as a
function of the `fetch` outcome: a non-2xx response throws
`` Error(`API error: ${response.status}`) `` without reading the body; an
`ok` response is `response.json()`d; any error from `fetch` or the body
parse is logged and rethrown unchanged. -/
def ask (outcome : FetchOutcome) : Except JsError Json :=
  match outcome with
  | .response r =>
    if !r.ok then .error (.plain ("API error: ".data ++ natToStr r.status))
    else
      match jsonParse r.body with
      | some data => .ok data
      | none => .error (.parseError ("Unexpected end of JSON input".data))
  | .reject isTypeError m =>
    .error (if isTypeError then .typeError m else .plain m)

/-- The JSON body `DocuMentorAPI.ask` posts to `/ask`
(`src/services/api.ts` lines 36–42), as the field list of
`JSON.stringify({question, source_filter, k, temperature, max_tokens})`
— `JSON.stringify` drops the `source_filter` key when the argument is
`undefined`. -/
def askBody (question : Str) (sourceFilter : Option Str) : List (Str × Json) :=
  ("question".data, Json.str question) ::
    (match sourceFilter with
     | some sf => [("source_filter".data, Json.str sf)]
     | none => []) ++
    [("k".data, Json.num 5), ("temperature".data, Json.num (1 / 10)),
     ("max_tokens".data, Json.num 1024)]

/-- The `AskRequest` shape of the `@/types/api` module. -/
structure AskRequest where
  question : Str
  source : Option Str := none
  conversation_id : Option Str := none

/-- The JSON body `api.ask` of `@/lib/api` posts to `/ask` (lines
84–89): `JSON.stringify(request)` of an `AskRequest`, optional fields
dropped when `undefined`. -/
def askBody2 (r : AskRequest) : List (Str × Json) :=
  ("question".data, Json.str r.question) ::
    (match r.source with
     | some sf => [("source".data, Json.str sf)]
     | none => []) ++
    (match r.conversation_id with
     | some c => [("conversation_id".data, Json.str c)]
     | none => [])

/-- A network call issued by a layout handler. -/
inductive ApiCall where
  | ask (question : Str) (sourceFilter : Option Str)
  | askRequest (question : Str) (source : Option Str) (conversationId : Option Str)

/-- A chat role. -/
inductive Role where
  | user
  | assistant

/-- The `Message` shape of the first `DocuMentorLayout` (`sources?:
any[]`, modelled as JSON values). -/
structure Message1 where
  id : Str
  content : Str
  role : Role
  timestamp : Nat
  sources : Option (List Json) := none
  confidence : Option ℚ := none
  responseTime : Option ℚ := none

/-- The component state of the first `DocuMentorLayout`. -/
structure State1 where
  messages : List Message1
  isLoading : Bool
  isSidebarOpen : Bool
  selectedSource : Option Str
  isCommandPaletteOpen : Bool
  isDarkMode : Bool

/-- The `AskResponse` shape of `src/services/api.ts` (sources kept as
opaque JSON values). -/
structure AskResponse where
  answer : Str
  sources : List Json
  response_time : ℚ
  confidence : ℚ

/-- The outcome of the awaited ask call inside a send handler: the
response on success, the thrown error on failure. -/
inductive AskOutcome (ρ : Type) where
  | success (response : ρ)
  | failure (error : JsError)

/-- The user message that `handleSendMessage` of the first layout appends
(part captured at `id: msg-${Date.now()}`). -/
def userMessage1 (now : Nat) (content : Str) : Message1 :=
  { id := "msg-".data ++ natToStr now, content := content, role := .user, timestamp := now }

/-- The assistant message that `handleSendMessage` of the first layout builds
from a successful response (lines 71–79 of the first layout). -/
def aiMessage1 (now : Nat) (r : AskResponse) : Message1 :=
  { id := "msg-".data ++ natToStr (now + 1), content := r.answer, role := .assistant,
    timestamp := now, sources := some r.sources, confidence := some r.confidence,
    responseTime := some r.response_time }

/-- The canned assistant message the first layout appends when the ask
call throws (lines 94–99 of the first layout). -/
def errorMessage1 (now : Nat) : Message1 :=
  { id := "msg-".data ++ natToStr (now + 1),
    content := ("Sorry, I encountered an error while processing your request. " ++
      "Please make sure the backend server is running on http://localhost:8000").data,
    role := .assistant, timestamp := now }

/-- Model of `handleSendMessage` in the first `DocuMentorLayout` (lines 52–112):
guard on `!content.trim() || isLoading`; append the user message and
raise the loading flag; call `documenterAPI.ask(content,
selectedSource)`; append the assistant message (success) or the canned
error message (failure); the `finally` clause clears the loading flag.
Returns the next state and the calls issued. -/
def handleSendMessage1 (s : State1) (content : Str) (now : Nat)
    (outcome : AskOutcome AskResponse) : State1 × List ApiCall :=
  if (jsTrim content).isEmpty || s.isLoading then (s, [])
  else
    let afterUser :=
      { s with messages := s.messages ++ [userMessage1 now content], isLoading := true }
    match outcome with
    | .success r =>
      ({ afterUser with
          messages := afterUser.messages ++ [aiMessage1 now r],
          isLoading := false },
       [ApiCall.ask content s.selectedSource])
    | .failure _ =>
      ({ afterUser with
          messages := afterUser.messages ++ [errorMessage1 now],
          isLoading := false },
       [ApiCall.ask content s.selectedSource])

/-- Model of `handleClearChat` in the first `DocuMentorLayout` (lines 114–120):
`setMessages([])` plus a toast; no network call. -/
def handleClearChat (s : State1) : State1 × List ApiCall :=
  ({ s with messages := [] }, [])

/-- The `Message` shape of the second `DocuMentorLayout` (`sources?:
string[]`). -/
structure Message2 where
  id : Str
  content : Str
  role : Role
  timestamp : Nat
  sources : Option (List Str) := none
  confidence : Option ℚ := none
  responseTime : Option ℚ := none

/-- The component state of the second `DocuMentorLayout`. -/
structure State2 where
  messages : List Message2
  isLoading : Bool
  selectedSource : Str
  sidebarCollapsed : Bool
  isDarkMode : Bool
  conversationId : Option Str
  showCommandPalette : Bool

/-- The `AskResponse` shape of the `@/types/api` module. -/
structure AskResponse2 where
  answer : Str
  sources : List Str
  confidence : ℚ
  response_time : ℚ
  conversation_id : Str

/-- Model of `Math.round` on an exact rational (JS rounds half away from zero
upward: `round(x) = floor(x + 0.5)`). -/
def jsMathRound (q : ℚ) : ℤ := ⌊q + 1 / 2⌋

/-- The assistant message that `handleSendMessage` of the second layout builds
from a successful response (lines 300–308 of the second layout):
`confidence` is `Math.round(response.confidence * 100)` and
`responseTime` is the client-measured `(endTime - startTime) / 1000`,
with `startTime`/`endTime` in milliseconds. -/
def assistantMessage2 (now startTime endTime : Nat) (r : AskResponse2) : Message2 :=
  { id := "assistant-".data ++ natToStr now, content := r.answer, role := .assistant,
    timestamp := now, sources := some r.sources,
    confidence := some (jsMathRound (r.confidence * 100) : ℚ),
    responseTime := some (((endTime : ℚ) - (startTime : ℚ)) / 1000) }

/-- The error message the second layout appends when the ask call throws
(lines 323–337 of the second layout): `error.message` when the error is
a `DocuMentorApiError`, a canned message otherwise. -/
def errorResponse2 (now : Nat) (e : JsError) : Message2 :=
  let errMsg :=
    match e with
    | .apiError a => a.message
    | _ => "Failed to get response from AI assistant.".data
  { id := "error-".data ++ natToStr now,
    content := "❌ **Error**: ".data ++ errMsg ++
      "\n\nPlease try again or check your connection.".data,
    role := .assistant, timestamp := now, sources := some [], confidence := some 0 }

/-- Model of `handleSendMessage` in the second `DocuMentorLayout` (lines
270–350): no input guard; append the user message and raise the loading
flag; build the `AskRequest` (the `source` field only when the selected
source is not `all`); call `api.ask`; on success adopt the `conversation_id`
of the response when none is set and append the assistant message; on
failure append the error message; the `finally` clause clears the
loading flag. -/
def handleSendMessage2 (s : State2) (content : Str) (now startTime endTime : Nat)
    (outcome : AskOutcome AskResponse2) : State2 × List ApiCall :=
  let userMessage : Message2 :=
    { id := "user-".data ++ natToStr now, content := content, role := .user, timestamp := now }
  let afterUser := { s with messages := s.messages ++ [userMessage], isLoading := true }
  let call := ApiCall.askRequest content
    (if s.selectedSource ≠ "all".data then some s.selectedSource else none)
    s.conversationId
  match outcome with
  | .success r =>
    let afterConv :=
      if afterUser.conversationId.isNone && !r.conversation_id.isEmpty then
        { afterUser with conversationId := some r.conversation_id }
      else afterUser
    ({ afterConv with
       messages := afterConv.messages ++ [assistantMessage2 now startTime endTime r],
       isLoading := false },
     [call])
  | .failure e =>
    ({ afterUser with
        messages := afterUser.messages ++ [errorResponse2 now e],
        isLoading := false },
     [call])

/-- Model of `handleSubmit` from `ChatInput` (`ChatInput.tsx` lines 41–44): return
without submitting when the trimmed value is empty or the input is
disabled, otherwise submit the trimmed value.  The result is the
argument passed to `onSubmit`, `none` when nothing is submitted. -/
def handleSubmit (value : Str) (disabled : Bool) : Option Str :=
  if (jsTrim value).isEmpty || disabled then none else some (jsTrim value)

/-- The submission path of the first layout: `ChatInput.handleSubmit`
feeding `handleSendMessage` of the layout. -/
def sendPath1 (s : State1) (value : Str) (disabled : Bool) (now : Nat)
    (outcome : AskOutcome AskResponse) : State1 × List ApiCall :=
  match handleSubmit value disabled with
  | none => (s, [])
  | some m => handleSendMessage1 s m now outcome

/-- The submission path of the second layout: `ChatInput.handleSubmit`
feeding `handleSendMessage` of the layout. -/
def sendPath2 (s : State2) (value : Str) (disabled : Bool) (now startTime endTime : Nat)
    (outcome : AskOutcome AskResponse2) : State2 × List ApiCall :=
  match handleSubmit value disabled with
  | none => (s, [])
  | some m => handleSendMessage2 s m now startTime endTime outcome

/-- The 500 response with a `detail` body used to refute C3 as stated. -/
def detailResp : HttpResponse :=
  { ok := false, status := 500, statusText := "Internal Server Error".data,
    body := "\x7b\"detail\":\"boom\"\x7d".data }

/-- The 404 response with an empty body used to witness C7. -/
def notFoundResp : HttpResponse :=
  { ok := false, status := 404, statusText := "Not Found".data, body := [] }

/-- The concrete response used to refute C5 as stated: its
`response_time` is 9 seconds while the surrounding call measures 2000 ms
of wall time. -/
def r5 : AskResponse2 :=
  { answer := "ans".data, sources := [], confidence := 1, response_time := 9,
    conversation_id := "c1".data }

/-- The concrete second-layout state used to refute C5 as stated. -/
def st5 : State2 :=
  { messages := [], isLoading := false, selectedSource := "all".data,
    sidebarCollapsed := false, isDarkMode := false, conversationId := none,
    showCommandPalette := false }

/-- The `AskRequest` used to refute C8 as stated: a bare question. -/
def bareRequest : AskRequest := { question := "hi".data }

/-- A string starts with itself followed by anything. -/
theorem jsStartsWith_append (p s : Str) : jsStartsWith (p ++ s) p = true := by
  induction p with
  | nil => cases s <;> rfl
  | cons c cs ih => simp [jsStartsWith, ih]

/-- A string starts with itself. -/
theorem jsStartsWith_refl (s : Str) : jsStartsWith s s = true := by
  simpa using jsStartsWith_append s []

/-- The `includes` test holds when the sought text is a leading
segment. -/
theorem jsIncludes_of_jsStartsWith {s t : Str} (h : jsStartsWith s t = true) :
    jsIncludes s t = true := by
  cases s with
  | nil => simpa [jsIncludes] using h
  | cons c rest => simp [jsIncludes, h]

/-- The `includes` test is stable under prepending text. -/
theorem jsIncludes_append_left (a : Str) {s t : Str} (h : jsIncludes s t = true) :
    jsIncludes (a ++ s) t = true := by
  induction a with
  | nil => simpa using h
  | cons c cs ih =>
    simp only [List.cons_append, jsIncludes, List.append_eq]
    rw [ih]
    simp

/-- Appending a single element makes it the last. -/
theorem getLast_append_singleton {α : Type} (l : List α) (a : α) :
    (l ++ [a]).getLast? = some a := by simp

/-- C1: the decoder does not buffer a line split across two reads.  On
the example given in the spec — `"data: {"a":1}\n"` then
`"data: {"b":2}\n"` with the first read ending after `{"a"` — the code
delivers only the `{b:2}` event (first conjunct), while the buffering
decoder the spec prescribes delivers `{a:1}` then `{b:2}` (second
conjunct).  When each read happens to end on a line boundary the code
does deliver both events in order (third conjunct). -/
theorem c1_no_buffering_across_reads :
    askStreamDecode ["data: \x7b\"a\"".data, ":1\x7d\ndata: \x7b\"b\":2\x7d\n".data] =
      [Json.obj [("b".data, Json.num 2)]] ∧
    bufferedDecode ["data: \x7b\"a\"".data, ":1\x7d\ndata: \x7b\"b\":2\x7d\n".data] =
      [Json.obj [("a".data, Json.num 1)], Json.obj [("b".data, Json.num 2)]] ∧
    askStreamDecode ["data: \x7b\"a\":1\x7d\n".data, "data: \x7b\"b\":2\x7d\n".data] =
      [Json.obj [("a".data, Json.num 1)], Json.obj [("b".data, Json.num 2)]] :=
  ⟨rfl, rfl, rfl⟩

/-- C2: a `data: ` line whose remainder fails to parse as JSON aborts
nothing — the line loop drops it and processes the remaining lines
exactly as if it were absent, and the read loop goes on to later
chunks. -/
theorem c2_malformed_event_skipped (pre post : List Str) (bad : Str)
    (h1 : jsStartsWith bad ("data: ".data) = true)
    (h2 : jsonParse (bad.drop 6) = none) :
    processLines (pre ++ bad :: post) = processLines (pre ++ post) ∧
    ∀ chunk chunks, askStreamDecode (chunk :: chunks) =
      processLines (jsSplit '\n' chunk) ++ askStreamDecode chunks := by
  refine ⟨?_, fun chunk chunks => rfl⟩
  induction pre with
  | nil => simp [processLines, h1, h2]
  | cons l ls ih =>
    simp only [List.cons_append, processLines]
    cases hsw : jsStartsWith l ("data: ".data)
    · simpa [hsw] using ih
    · cases hp : jsonParse (l.drop 6) <;> simp [hsw, hp, ih]

theorem c2_malformed_event_skipped_witness :
    (jsStartsWith ("data: \x7boops".data) ("data: ".data) = true ∧
     jsonParse (("data: \x7boops".data).drop 6) = none) ∧
    (processLines (["event: ping".data] ++ ("data: \x7boops".data) ::
        ["data: \x7b\"b\":2\x7d".data]) =
       processLines (["event: ping".data] ++ ["data: \x7b\"b\":2\x7d".data]) ∧
     ∀ chunk chunks, askStreamDecode (chunk :: chunks) =
       processLines (jsSplit '\n' chunk) ++ askStreamDecode chunks) :=
  ⟨⟨rfl, rfl⟩,
   c2_malformed_event_skipped ["event: ping".data] ["data: \x7b\"b\":2\x7d".data]
     ("data: \x7boops".data) rfl rfl⟩

/-- C3 counterexample: `DocuMentorAPI.ask` surfaces `"API error: 500"`
for a 500 response whose JSON body carries `detail: "boom"` — the
surfaced message is not the `detail` field, refuting the claim for
"every API call". -/
theorem c3_ask_ignores_detail_counterexample :
    ask (.response detailResp) = .error (.plain ("API error: 500".data)) ∧
    (jsonParse detailResp.body).bind (fun j => jsonField j ("detail".data)) =
      some (Json.str ("boom".data)) ∧
    "API error: 500".data ≠ "boom".data :=
  ⟨rfl, rfl, by decide⟩

/-- C3 (amended): for a non-2xx response, the `apiRequest`-based client
surfaces an error carrying `httpErrorMessage`, which equals the `detail`
value of the body (string-coerced; verbatim for a non-empty `detail`
string) when the body is valid JSON whose `detail` field is truthy, and
in every other case — unparseable body, missing `detail`, or falsy
`detail` such as the empty string — equals the fallback message, which
contains the HTTP status code; the `DocuMentorAPI.ask` client always
surfaces the fallback `API error: <status>` (which contains the status
code), regardless of the body. -/
theorem c3_detail_or_status_fallback (r : HttpResponse) (h : r.ok = false) :
    apiRequest (.response r) =
      .error { message := httpErrorMessage r, status := r.status,
               statusText := r.statusText } ∧
    (∀ j d, jsonParse r.body = some j → jsonField j ("detail".data) = some (Json.str d) →
      d ≠ [] → httpErrorMessage r = d) ∧
    (∀ j d, jsonParse r.body = some j → jsonField j ("detail".data) = some d →
      jsonTruthy d = true → httpErrorMessage r = jsonToStr d) ∧
    (∀ j d, jsonParse r.body = some j → jsonField j ("detail".data) = some d →
      jsonTruthy d = false → httpErrorMessage r = fallbackErrorMessage r) ∧
    (∀ j, jsonParse r.body = some j → jsonField j ("detail".data) = none →
      httpErrorMessage r = fallbackErrorMessage r) ∧
    (jsonParse r.body = none → httpErrorMessage r = fallbackErrorMessage r) ∧
    jsIncludes (fallbackErrorMessage r) (natToStr r.status) = true ∧
    ask (.response r) = .error (.plain ("API error: ".data ++ natToStr r.status)) ∧
    jsIncludes ("API error: ".data ++ natToStr r.status) (natToStr r.status) = true := by
  refine ⟨?_, ?_, ?_, ?_, ?_, ?_, ?_, ?_, ?_⟩
  · simp [apiRequest, h]
  · intro j d hj hd hne
    simp [httpErrorMessage, hj, hd, jsonTruthy, jsonToStr, hne]
  · intro j d hj hd ht
    simp [httpErrorMessage, hj, hd, ht]
  · intro j d hj hd ht
    simp [httpErrorMessage, hj, hd, ht]
  · intro j hj hd
    simp [httpErrorMessage, hj, hd]
  · intro hj
    simp [httpErrorMessage, hj]
  · unfold fallbackErrorMessage
    simp only [List.append_assoc]
    exact jsIncludes_append_left ("Request failed: ".data)
      (jsIncludes_of_jsStartsWith (jsStartsWith_append (natToStr r.status) _))
  · simp [ask, h]
  · exact jsIncludes_append_left ("API error: ".data)
      (jsIncludes_of_jsStartsWith (jsStartsWith_refl _))

theorem c3_detail_or_status_fallback_witness :
    detailResp.ok = false ∧
    (apiRequest (.response detailResp) =
       .error { message := httpErrorMessage detailResp, status := detailResp.status,
                statusText := detailResp.statusText } ∧
     (∀ j d, jsonParse detailResp.body = some j →
       jsonField j ("detail".data) = some (Json.str d) → d ≠ [] →
       httpErrorMessage detailResp = d) ∧
     (∀ j d, jsonParse detailResp.body = some j → jsonField j ("detail".data) = some d →
       jsonTruthy d = true → httpErrorMessage detailResp = jsonToStr d) ∧
     (∀ j d, jsonParse detailResp.body = some j → jsonField j ("detail".data) = some d →
       jsonTruthy d = false →
       httpErrorMessage detailResp = fallbackErrorMessage detailResp) ∧
     (∀ j, jsonParse detailResp.body = some j → jsonField j ("detail".data) = none →
       httpErrorMessage detailResp = fallbackErrorMessage detailResp) ∧
     (jsonParse detailResp.body = none →
       httpErrorMessage detailResp = fallbackErrorMessage detailResp) ∧
     jsIncludes (fallbackErrorMessage detailResp) (natToStr detailResp.status) = true ∧
     ask (.response detailResp) =
       .error (.plain ("API error: ".data ++ natToStr detailResp.status)) ∧
     jsIncludes ("API error: ".data ++ natToStr detailResp.status)
       (natToStr detailResp.status) = true) :=
  ⟨rfl, c3_detail_or_status_fallback detailResp rfl⟩

/-- C4: a value whose trim is empty never reaches the network: the
`handleSendMessage` guard of the first layout drops it, and in both
layouts the `ChatInput` submit guard drops it before the handler runs —
the state is unchanged and no call is issued. -/
theorem c4_whitespace_submit_noop (s1 : State1) (s2 : State2) (value : Str)
    (now st et : Nat) (o1 : AskOutcome AskResponse) (o2 : AskOutcome AskResponse2)
    (h : jsTrim value = []) :
    handleSendMessage1 s1 value now o1 = (s1, []) ∧
    sendPath1 s1 value false now o1 = (s1, []) ∧
    sendPath2 s2 value false now st et o2 = (s2, []) := by
  have he : (jsTrim value).isEmpty = true := by simp [h]
  refine ⟨?_, ?_, ?_⟩ <;>
    simp [handleSendMessage1, sendPath1, sendPath2, handleSubmit, he]

theorem c4_whitespace_submit_noop_witness :
    jsTrim ("  \n ".data) = [] ∧
    (handleSendMessage1 ⟨[], false, true, none, false, true⟩ ("  \n ".data) 7
        (.failure (.plain [])) = (⟨[], false, true, none, false, true⟩, []) ∧
     sendPath1 ⟨[], false, true, none, false, true⟩ ("  \n ".data) false 7
        (.failure (.plain [])) = (⟨[], false, true, none, false, true⟩, []) ∧
     sendPath2 ⟨[], false, "all".data, false, true, none, false⟩ ("  \n ".data) false 7 0 0
        (.failure (.plain [])) = (⟨[], false, "all".data, false, true, none, false⟩, [])) :=
  ⟨rfl, c4_whitespace_submit_noop _ _ _ _ _ _ _ _ rfl⟩

/-- C5 counterexample: in the second layout, a successful ask with
`response_time = 9` performed over 2000 ms of wall time yields an
assistant message whose `responseTime` is 2 — the client-measured
elapsed time, not the `response_time` field of the response. -/
theorem c5_response_time_not_carried :
    (assistantMessage2 1 0 2000 r5).responseTime = some 2 ∧
    r5.response_time = 9 ∧
    (assistantMessage2 1 0 2000 r5).responseTime ≠ some r5.response_time ∧
    (handleSendMessage2 st5 ("hi".data) 1 0 2000 (.success r5)).1.messages =
      [{ id := "user-1".data, content := "hi".data, role := .user, timestamp := 1 },
       assistantMessage2 1 0 2000 r5] := by
  refine ⟨?_, rfl, ?_, ?_⟩
  · simp [assistantMessage2]
    norm_num
  · simp [assistantMessage2, r5]
    norm_num
  · rfl

/-- C5 (amended): on a successful ask, the assistant message of the
first layout carries `answer`, `sources`, `confidence` and
`response_time` through unchanged; the second layout carries `answer`
and `sources` unchanged, converts `confidence` to a rounded percentage,
and sets `responseTime` to the client-measured elapsed seconds
`(endTime - startTime) / 1000` instead of the `response_time` field of
the response. -/
theorem c5_ask_response_fields (s1 : State1) (content : Str) (now : Nat)
    (r1 : AskResponse) (s2 : State2) (c2 : Str) (n2 st et : Nat) (r2 : AskResponse2)
    (h1 : (jsTrim content).isEmpty = false) (h2 : s1.isLoading = false) :
    (handleSendMessage1 s1 content now (.success r1)).1.messages =
      s1.messages ++ [userMessage1 now content, aiMessage1 now r1] ∧
    (aiMessage1 now r1).content = r1.answer ∧
    (aiMessage1 now r1).sources = some r1.sources ∧
    (aiMessage1 now r1).confidence = some r1.confidence ∧
    (aiMessage1 now r1).responseTime = some r1.response_time ∧
    ((handleSendMessage2 s2 c2 n2 st et (.success r2)).1.messages).getLast? =
      some (assistantMessage2 n2 st et r2) ∧
    (assistantMessage2 n2 st et r2).content = r2.answer ∧
    (assistantMessage2 n2 st et r2).sources = some r2.sources ∧
    (assistantMessage2 n2 st et r2).confidence =
      some ((jsMathRound (r2.confidence * 100) : ℤ) : ℚ) ∧
    (assistantMessage2 n2 st et r2).responseTime =
      some (((et : ℚ) - (st : ℚ)) / 1000) := by
  refine ⟨?_, rfl, rfl, rfl, rfl, ?_, rfl, rfl, rfl, rfl⟩
  · simp [handleSendMessage1, h1, h2]
  · unfold handleSendMessage2
    cases hcv : (s2.conversationId.isNone && !r2.conversation_id.isEmpty) <;>
      simp [hcv, getLast_append_singleton]

theorem c5_ask_response_fields_witness :
    ((jsTrim ("hi".data)).isEmpty = false ∧
     (⟨[], false, true, none, false, true⟩ : State1).isLoading = false) ∧
    ((handleSendMessage1 ⟨[], false, true, none, false, true⟩ ("hi".data) 3
        (.success ⟨"a".data, [], 4, 1⟩)).1.messages =
      [] ++ [userMessage1 3 ("hi".data), aiMessage1 3 ⟨"a".data, [], 4, 1⟩] ∧
     (aiMessage1 3 ⟨"a".data, [], 4, 1⟩).content = "a".data ∧
     (aiMessage1 3 ⟨"a".data, [], 4, 1⟩).sources = some [] ∧
     (aiMessage1 3 ⟨"a".data, [], 4, 1⟩).confidence = some 1 ∧
     (aiMessage1 3 ⟨"a".data, [], 4, 1⟩).responseTime = some 4 ∧
     ((handleSendMessage2 st5 ("hi".data) 1 0 2000 (.success r5)).1.messages).getLast? =
       some (assistantMessage2 1 0 2000 r5) ∧
     (assistantMessage2 1 0 2000 r5).content = r5.answer ∧
     (assistantMessage2 1 0 2000 r5).sources = some r5.sources ∧
     (assistantMessage2 1 0 2000 r5).confidence =
       some ((jsMathRound (r5.confidence * 100) : ℤ) : ℚ) ∧
     (assistantMessage2 1 0 2000 r5).responseTime =
       some (((2000 : ℚ) - ((0 : Nat) : ℚ)) / 1000)) :=
  ⟨⟨rfl, rfl⟩, c5_ask_response_fields _ _ _ _ _ _ _ _ _ _ rfl rfl⟩

/-- C6: clearing the chat empties the message list, issues no network
call, and leaves every other piece of layout state (selected source,
theme, sidebar, loading flag, palette flag) unchanged. -/
theorem c6_clear_chat_frame (s : State1) :
    (handleClearChat s).1.messages = [] ∧
    (handleClearChat s).2 = [] ∧
    (handleClearChat s).1.selectedSource = s.selectedSource ∧
    (handleClearChat s).1.isDarkMode = s.isDarkMode ∧
    (handleClearChat s).1.isSidebarOpen = s.isSidebarOpen ∧
    (handleClearChat s).1.isLoading = s.isLoading ∧
    (handleClearChat s).1.isCommandPaletteOpen = s.isCommandPaletteOpen :=
  ⟨rfl, rfl, rfl, rfl, rfl, rfl, rfl⟩

/-- C7: in the `apiRequest` client, a transport failure (rejected
`fetch` with a `TypeError` mentioning `fetch`) is surfaced as the
connectivity error with status 0, while a non-2xx HTTP response is
surfaced with its own (nonzero) status — the two errors are distinct;
and in the `DocuMentorAPI` client, a transport failure is rethrown as
the original `TypeError` while a non-2xx response throws the plain
`API error: <status>` error — again two distinct errors.  Both clients
surface the two failure kinds distinguishably. -/
theorem c7_network_vs_http_distinct (r : HttpResponse) (m : Str)
    (h1 : r.ok = false) (h2 : r.status ≠ 0)
    (h3 : jsIncludes m ("fetch".data) = true) :
    apiRequest (.reject true m) = .error connectivityError ∧
    connectivityError.status = 0 ∧
    connectivityError.statusText = "Network Error".data ∧
    apiRequest (.response r) =
      .error { message := httpErrorMessage r, status := r.status,
               statusText := r.statusText } ∧
    ({ message := httpErrorMessage r, status := r.status,
       statusText := r.statusText } : DocuMentorApiError) ≠ connectivityError ∧
    ask (.reject true m) = .error (.typeError m) ∧
    ask (.response r) = .error (.plain ("API error: ".data ++ natToStr r.status)) ∧
    JsError.typeError m ≠ JsError.plain ("API error: ".data ++ natToStr r.status) := by
  refine ⟨?_, rfl, rfl, ?_, ?_, rfl, ?_, ?_⟩
  · simp [apiRequest, h3]
  · simp [apiRequest, h1]
  · intro hcontra
    exact h2 (congrArg DocuMentorApiError.status hcontra)
  · simp [ask, h1]
  · intro hcontra
    cases hcontra

theorem c7_network_vs_http_distinct_witness :
    (notFoundResp.ok = false ∧ notFoundResp.status ≠ 0 ∧
     jsIncludes ("Failed to fetch".data) ("fetch".data) = true) ∧
    (apiRequest (.reject true ("Failed to fetch".data)) = .error connectivityError ∧
     connectivityError.status = 0 ∧
     connectivityError.statusText = "Network Error".data ∧
     apiRequest (.response notFoundResp) =
       .error { message := httpErrorMessage notFoundResp, status := notFoundResp.status,
                statusText := notFoundResp.statusText } ∧
     ({ message := httpErrorMessage notFoundResp, status := notFoundResp.status,
        statusText := notFoundResp.statusText } : DocuMentorApiError) ≠
       connectivityError ∧
     ask (.reject true ("Failed to fetch".data)) =
       .error (.typeError ("Failed to fetch".data)) ∧
     ask (.response notFoundResp) =
       .error (.plain ("API error: ".data ++ natToStr notFoundResp.status)) ∧
     JsError.typeError ("Failed to fetch".data) ≠
       JsError.plain ("API error: ".data ++ natToStr notFoundResp.status)) :=
  ⟨⟨rfl, by decide, rfl⟩,
   c7_network_vs_http_distinct notFoundResp ("Failed to fetch".data) rfl (by decide) rfl⟩

/-- C8 counterexample: the body `api.ask` of `@/lib/api` posts for a
bare question has no `k`, `temperature` or `max_tokens` field at all —
it is just `{question}` — refuting the claim for "every request the
client sends to POST /ask". -/
theorem c8_ask_body_missing_fields :
    jsonField (Json.obj (askBody2 bareRequest)) ("k".data) = none ∧
    jsonField (Json.obj (askBody2 bareRequest)) ("temperature".data) = none ∧
    jsonField (Json.obj (askBody2 bareRequest)) ("max_tokens".data) = none ∧
    askBody2 bareRequest = [("question".data, Json.str ("hi".data))] :=
  ⟨rfl, rfl, rfl, rfl⟩

/-- C8 (amended): the `DocuMentorAPI.ask` client always posts
`{question, source_filter?, k: 5, temperature: 0.1, max_tokens: 1024}`
(the `source_filter` key present exactly when a filter is given), while
the `api.ask` client of `@/lib/api` posts only
`{question, source?, conversation_id?}` with no `k`, `temperature` or
`max_tokens` field. -/
theorem c8_ask_body_shape (question : Str) (sf : Option Str) (r : AskRequest) :
    jsonField (Json.obj (askBody question sf)) ("question".data) =
      some (Json.str question) ∧
    jsonField (Json.obj (askBody question sf)) ("k".data) = some (Json.num 5) ∧
    jsonField (Json.obj (askBody question sf)) ("temperature".data) =
      some (Json.num (1 / 10)) ∧
    jsonField (Json.obj (askBody question sf)) ("max_tokens".data) =
      some (Json.num 1024) ∧
    (sf = none →
      jsonField (Json.obj (askBody question sf)) ("source_filter".data) = none) ∧
    (∀ x, sf = some x →
      jsonField (Json.obj (askBody question sf)) ("source_filter".data) =
        some (Json.str x)) ∧
    jsonField (Json.obj (askBody2 r)) ("k".data) = none ∧
    jsonField (Json.obj (askBody2 r)) ("temperature".data) = none ∧
    jsonField (Json.obj (askBody2 r)) ("max_tokens".data) = none := by
  obtain ⟨q, src, conv⟩ := r
  refine ⟨?_, ?_, ?_, ?_, ?_, ?_, ?_, ?_, ?_⟩
  · cases sf <;> rfl
  · cases sf <;> rfl
  · cases sf <;> rfl
  · cases sf <;> rfl
  · rintro rfl; rfl
  · rintro x rfl; rfl
  · cases src <;> cases conv <;> rfl
  · cases src <;> cases conv <;> rfl
  · cases src <;> cases conv <;> rfl

theorem c8_ask_body_shape_witness :
    jsonField (Json.obj (askBody ("hi".data) (some ("react".data)))) ("question".data) =
      some (Json.str ("hi".data)) ∧
    jsonField (Json.obj (askBody ("hi".data) (some ("react".data)))) ("k".data) =
      some (Json.num 5) ∧
    jsonField (Json.obj (askBody ("hi".data) (some ("react".data)))) ("temperature".data) =
      some (Json.num (1 / 10)) ∧
    jsonField (Json.obj (askBody ("hi".data) (some ("react".data)))) ("max_tokens".data) =
      some (Json.num 1024) ∧
    (some ("react".data) = none →
      jsonField (Json.obj (askBody ("hi".data) (some ("react".data))))
        ("source_filter".data) = none) ∧
    (∀ x, some ("react".data) = some x →
      jsonField (Json.obj (askBody ("hi".data) (some ("react".data))))
        ("source_filter".data) = some (Json.str x)) ∧
    jsonField (Json.obj (askBody2 bareRequest)) ("k".data) = none ∧
    jsonField (Json.obj (askBody2 bareRequest)) ("temperature".data) = none ∧
    jsonField (Json.obj (askBody2 bareRequest)) ("max_tokens".data) = none :=
  c8_ask_body_shape ("hi".data) (some ("react".data)) bareRequest

/-- C9: whenever a send handler runs from a non-loading state, the state
it leaves behind has `isLoading = false` — the `finally` branch resets
the flag on the success path and on the failure path alike (the second
layout resets it unconditionally). -/
theorem c9_loading_always_reset (s1 : State1) (c : Str) (now : Nat)
    (o1 : AskOutcome AskResponse) (s2 : State2) (c2 : Str) (n2 st et : Nat)
    (o2 : AskOutcome AskResponse2) (h : s1.isLoading = false) :
    (handleSendMessage1 s1 c now o1).1.isLoading = false ∧
    (handleSendMessage2 s2 c2 n2 st et o2).1.isLoading = false := by
  constructor
  · unfold handleSendMessage1
    split
    · exact h
    · cases o1 <;> rfl
  · unfold handleSendMessage2
    cases o2 <;> rfl

theorem c9_loading_always_reset_witness :
    (⟨[], false, true, none, false, true⟩ : State1).isLoading = false ∧
    ((handleSendMessage1 ⟨[], false, true, none, false, true⟩ ("hi".data) 3
        (.success ⟨"a".data, [], 1, 1⟩)).1.isLoading = false ∧
     (handleSendMessage2 ⟨[], true, "all".data, false, true, none, false⟩ ("hi".data) 3 0 5
        (.failure (.plain []))).1.isLoading = false) :=
  ⟨rfl, c9_loading_always_reset _ _ _ _ _ _ _ _ _ _ rfl⟩

/-- C10: the line loop of the decoder fires the callback exactly for the
lines beginning with `data: ` whose remainder parses as JSON — every
other line is dropped without effect. -/
theorem c10_events_exactly_data_lines (lines : List Str) :
    processLines lines = lines.filterMap specStreamEvent := by
  induction lines with
  | nil => rfl
  | cons l rest ih =>
    simp only [processLines, List.filterMap_cons, specStreamEvent]
    cases hsw : jsStartsWith l ("data: ".data)
    · simp [hsw, ih]
    · cases hp : jsonParse (l.drop 6) <;> simp [hsw, hp, ih]
